import Mathlib

/-!
Verification development for the imagegrabber program (src/main.go).

The file is a shallow embedding of the program: the data model of the
Flickr search response, the crawler loop fetchFlickrData, the worker
loop grabPictures, and the shutdown coordination in main are translated
into executable Lean definitions.  Network, filesystem and JSON decoding
are environment oracles (plain function parameters); Go channel and
select semantics are modelled explicitly where the code depends on them.
Comments cite the line numbers of src/main.go throughout.
-/

/-- Data model of one size variant of a search result, main.go lines 30 to 34.
The Go json field names are file for Filename and url for Url. -/
structure FlickrResultPhotoSize where
  Label : String
  Filename : String
  Url : String
deriving DecidableEq

/-- One search result item, main.go lines 24 to 28.  The Go map from size
label to variant is modelled as an association list with lookupSize. -/
structure FlickrResultPhoto where
  Name : String
  Description : String
  Sizes : List (String × FlickrResultPhotoSize)
deriving DecidableEq

/-- Decoded search page, main.go lines 20 to 22. -/
structure FlickrResult where
  Photos : List FlickrResultPhoto
deriving DecidableEq

/-- Go map lookup sized, ok := photo.Sizes[sizeWanted], main.go line 180. -/
def lookupSize (sizes : List (String × FlickrResultPhotoSize)) (k : String) :
    Option FlickrResultPhotoSize :=
  match sizes with
  | [] => none
  | (k2, v) :: rest => if k2 = k then some v else lookupSize rest k

/-- Outcome of a successful http.Get call in the worker, main.go line 205:
the header carries ContentLength and the body is the byte stream.
Bytes are modelled as Nat. -/
structure GetResp where
  contentLength : Int
  body : List Nat
deriving DecidableEq

/-- Bytes that io.Copy(fo, res.Body) writes into the file, main.go line 209.
The copyStop oracle is none when the copy runs to the end of the body and
some k when the stream breaks after k bytes; in both cases the code drops
the error value returned by io.Copy. -/
def copyContent (resp : GetResp) (copyStop : Option Nat) : List Nat :=
  match copyStop with
  | none => resp.body
  | some k => resp.body.take k

/-- Destination path built by fmt.Sprintf with format %s/%s, main.go
line 208: plain string concatenation, the filename is used verbatim. -/
def destPath (dir filename : String) : String := dir ++ "/" ++ filename

/-- Observable effects of the per-item retry loop of a worker, main.go
lines 202 to 221.
attempts counts http.Get calls; sleeps lists the backoff durations of
time.Sleep in order, main.go line 217; created records the single file
write of the success path, main.go lines 208 to 214; abandonedAfter is the
final value of the retries variable when the loop runs out, which feeds
the hard error log of main.go line 221, and is none when the success path
broke out of the loop. -/
structure ItemTrace where
  attempts : Nat
  sleeps : List Nat
  created : Option (String × List Nat)
  abandonedAfter : Option Nat
deriving DecidableEq

/-- Retry loop body, main.go lines 204 to 219, translated attempt by
attempt.  Arguments i and fuel mirror the loop header
for retries = 0; retries < 5; retries++ — i is the current value of
retries and fuel is the number of iterations the bound still allows.
On get i = some resp (http.Get succeeded) the code logs and tries
os.Create: when createOk i is true the file is written and
break nextPicture ends the loop; when it is false the if body is skipped
and the loop moves to the next attempt with no sleep and no log.  On
get i = none the else branch sleeps 2 * (retries + 1), main.go line 217. -/
def grabLoop (sized : FlickrResultPhotoSize) (dir : String)
    (get : Nat → Option GetResp) (createOk : Nat → Bool)
    (copyStop : Nat → Option Nat) : Nat → Nat → ItemTrace
  | i, 0 => { attempts := 0, sleeps := [], created := none, abandonedAfter := some i }
  | i, fuel + 1 =>
    match get i with
    | some resp =>
      if createOk i then
        { attempts := 1, sleeps := [],
          created := some (destPath dir sized.Filename, copyContent resp (copyStop i)),
          abandonedAfter := none }
      else
        let t := grabLoop sized dir get createOk copyStop (i + 1) fuel
        { t with attempts := t.attempts + 1 }
    | none =>
      let t := grabLoop sized dir get createOk copyStop (i + 1) fuel
      { t with attempts := t.attempts + 1, sleeps := 2 * (i + 1) :: t.sleeps }

/-- Whole retry sequence for one dequeued item: the loop starts at
retries = 0 with a budget of 5 attempts, main.go line 204. -/
def grabItem (sized : FlickrResultPhotoSize) (dir : String)
    (get : Nat → Option GetResp) (createOk : Nat → Bool)
    (copyStop : Nat → Option Nat) : ItemTrace :=
  grabLoop sized dir get createOk copyStop 0 5

/-- Rendered hard error line of main.go line 221. -/
def hardErrorLog (r : Nat) : String :=
  "could not fetch after " ++ toString r ++ " retries -> assuming hard error"

/-- Filesystem model: association of path to file bytes. -/
abbrev FS := List (String × List Nat)

/-- Create or replace a file; os.Create truncates an existing file. -/
def fsWrite (fs : FS) (p : String) (b : List Nat) : FS :=
  match fs with
  | [] => [(p, b)]
  | (q, c) :: rest => if q = p then (p, b) :: rest else (q, c) :: fsWrite rest p b

def fsRead (fs : FS) (p : String) : Option (List Nat) :=
  match fs with
  | [] => none
  | (q, c) :: rest => if q = p then some c else fsRead rest p

/-- Apply the file effect of one item to the filesystem: the success path
of main.go lines 208 to 214 first truncates via os.Create and then streams
the body via io.Copy; every other path touches no file. -/
def applyTrace (fs : FS) (t : ItemTrace) : FS :=
  match t.created with
  | none => fs
  | some (p, b) => fsWrite (fsWrite fs p []) p b

/-- Resolution of the three-way select of the worker loop, main.go
lines 200 to 226: receive from the queue, receive from the closed stop
channel, or the default branch.  Go select semantics: a buffered receive
is ready when the queue is nonempty, a receive on a closed channel is
always ready, and when several cases are ready one of them is chosen
pseudo-randomly — the pick argument is that choice; default fires only
when no case is ready. -/
inductive WorkerSel
  | gotItem
  | stopExit
  | idle
deriving DecidableEq

def workerSelect (stopClosed : Bool) (qlen : Nat) (pick : Bool) : WorkerSel :=
  if 0 < qlen then
    if stopClosed then (if pick then WorkerSel.gotItem else WorkerSel.stopExit)
    else WorkerSel.gotItem
  else
    if stopClosed then WorkerSel.stopExit else WorkerSel.idle

/-- What the worker does after one pass through its select: loop again or
return.  The stop case, main.go lines 222 to 224, is the only return. -/
inductive WorkerNext
  | looped
  | exited
deriving DecidableEq

structure WorkerRes where
  fs : FS
  queue : List FlickrResultPhotoSize
  next : WorkerNext
  trace : Option ItemTrace
deriving DecidableEq

/-- One iteration of the grabPictures loop, main.go lines 198 to 227.
When the select resolves to the queue case the head item is dequeued and
its whole retry sequence runs; the hard error log after the retry loop
does not end the worker, which goes back to the select.  The stop case
returns.  The default case busy-loops. -/
def grabPicturesIter (stopClosed : Bool) (queue : List FlickrResultPhotoSize)
    (pick : Bool) (get : Nat → Option GetResp) (createOk : Nat → Bool)
    (copyStop : Nat → Option Nat) (dir : String) (fs : FS) : WorkerRes :=
  match workerSelect stopClosed queue.length pick, queue with
  | WorkerSel.gotItem, sized :: rest =>
    let t := grabItem sized dir get createOk copyStop
    { fs := applyTrace fs t, queue := rest, next := WorkerNext.looped, trace := some t }
  | WorkerSel.gotItem, [] =>
    { fs := fs, queue := queue, next := WorkerNext.looped, trace := none }
  | WorkerSel.stopExit, _ =>
    { fs := fs, queue := queue, next := WorkerNext.exited, trace := none }
  | WorkerSel.idle, _ =>
    { fs := fs, queue := queue, next := WorkerNext.looped, trace := none }

/-- Resolution of the enqueue select of the crawler, main.go lines 182 to
189: receive from stop, send the descriptor, or default.  A send on a
buffered channel is ready when the buffer is not full; a receive on the
closed stop channel is always ready; with both ready the choice is
pseudo-random (pick); default fires only when no case is ready and drops
the descriptor. -/
inductive OfferRes
  | stopNow
  | enqueued
  | dropped
deriving DecidableEq

def offerSelect (stopClosed : Bool) (qlen cap : Nat) (pick : Bool) : OfferRes :=
  if stopClosed then
    if qlen < cap then (if pick then OfferRes.stopNow else OfferRes.enqueued)
    else OfferRes.stopNow
  else
    if qlen < cap then OfferRes.enqueued else OfferRes.dropped

/-- Events the crawler emits: a page request actually issued (client.Do,
main.go line 151) and the fate of each offered descriptor. -/
inductive CrawlEvent
  | fetchedPage (n : Nat)
  | enqueued (d : FlickrResultPhotoSize)
  | dropped (d : FlickrResultPhotoSize)
deriving DecidableEq

/-- The descriptor carried by an offer event, if any. -/
def offerOf : CrawlEvent → Option FlickrResultPhotoSize
  | CrawlEvent.fetchedPage _ => none
  | CrawlEvent.enqueued d => some d
  | CrawlEvent.dropped d => some d

/-- Per-item loop over the photos of one decoded page, main.go lines 179
to 191.  The oracles are indexed by the position of the photo in the list:
stopAt i tells whether the stop channel is closed when the select for item
i runs, qlenAt i is the queue length at that moment, pickAt i resolves the
select when several cases are ready.  Returns the events and whether the
stop case of the select fired (which makes fetchFlickrData return). -/
def processPhotos (sizeWanted : String) (cap : Nat) (stopAt : Nat → Bool)
    (qlenAt : Nat → Nat) (pickAt : Nat → Bool) :
    List FlickrResultPhoto → Nat → List CrawlEvent × Bool
  | [], _ => ([], false)
  | photo :: rest, i =>
    match lookupSize photo.Sizes sizeWanted with
    | none => processPhotos sizeWanted cap stopAt qlenAt pickAt rest (i + 1)
    | some sized =>
      match offerSelect (stopAt i) (qlenAt i) cap (pickAt i) with
      | OfferRes.stopNow => ([], true)
      | OfferRes.enqueued =>
        let r := processPhotos sizeWanted cap stopAt qlenAt pickAt rest (i + 1)
        (CrawlEvent.enqueued sized :: r.1, r.2)
      | OfferRes.dropped =>
        let r := processPhotos sizeWanted cap stopAt qlenAt pickAt rest (i + 1)
        (CrawlEvent.dropped sized :: r.1, r.2)

/-- What the network does for one page request of the crawler:
http.NewRequest fails (main.go line 147), client.Do fails (line 152), or a
response arrives with a declared content type, a body, and a flag telling
whether ioutil.ReadAll of the body fails (line 166). -/
inductive FetchOutcome
  | reqErr (msg : String)
  | doErr (msg : String)
  | resp (contentType : String) (body : String) (readErr : Bool)
deriving DecidableEq

/-- Environment of one crawler run: the network per page, the JSON decoder
(json.Unmarshal, main.go line 172, is an oracle — its success and value
come from the environment), the stop channel state at the page check of
main.go lines 139 to 144 and at each enqueue select, the queue length at
each enqueue select, and the pseudo-random pick of each enqueue select. -/
structure CrawlEnv where
  stopAtPage : Nat → Bool
  fetch : Nat → FetchOutcome
  decode : String → Option FlickrResult
  stopAtOffer : Nat → Nat → Bool
  qlenAt : Nat → Nat → Nat
  pickAt : Nat → Nat → Bool

/-- Exit code of the Go standard library log.Fatalf: Printf followed by
os.Exit(1). -/
def logFatalExitCode : Nat := 1

/-- Result of one iteration of the page loop. -/
inductive PageRes
  | stopped
  | fatal (code : Nat) (msg : String)
  | endOfList (msg : String)
  | parseEnd (msg : String)
  | ok (stoppedDuringOffers : Bool)
deriving DecidableEq

/-- One iteration of the page loop of fetchFlickrData, main.go lines 138
to 192, in source order: the stop select (lines 139 to 144), createRequest
(fatal on error, lines 146 to 149), client.Do (fatal on error, lines 151
to 154), the content type check (return on mismatch, lines 156 to 160),
ioutil.ReadAll (fatal on error, lines 165 to 168), json.Unmarshal (break
on error, lines 172 to 177), and the per-photo loop. -/
def pageIter (env : CrawlEnv) (sizeWanted : String) (cap : Nat) (page : Nat) :
    List CrawlEvent × PageRes :=
  if env.stopAtPage page then ([], PageRes.stopped)
  else
    match env.fetch page with
    | FetchOutcome.reqErr msg =>
      ([], PageRes.fatal logFatalExitCode ("error creating request: " ++ msg))
    | FetchOutcome.doErr msg =>
      ([CrawlEvent.fetchedPage page],
       PageRes.fatal logFatalExitCode ("error while getting response: " ++ msg))
    | FetchOutcome.resp ct body readErr =>
      if ct ≠ "application/json" then
        ([CrawlEvent.fetchedPage page],
         PageRes.endOfList "result is not application/json -> assuming end of list")
      else if readErr then
        ([CrawlEvent.fetchedPage page],
         PageRes.fatal logFatalExitCode "error while reading response body")
      else
        match env.decode body with
        | none =>
          ([CrawlEvent.fetchedPage page],
           PageRes.parseEnd "can't parse json structure -> assuming end of list")
        | some result =>
          let r := processPhotos sizeWanted cap (env.stopAtOffer page)
            (env.qlenAt page) (env.pickAt page) result.Photos 0
          (CrawlEvent.fetchedPage page :: r.1, PageRes.ok r.2)

/-- How a crawler run ends. -/
inductive CrawlStop
  | stoppedBySignal
  | fatalExit (code : Nat) (msg : String)
  | endOfList (msg : String)
  | parseEnd (msg : String)
  | pagesDone
deriving DecidableEq

/-- Page loop for page := page; page <= maxPages; page++, main.go line
138, with fuel = maxPages - page + 1 remaining iterations. -/
def crawlLoop (env : CrawlEnv) (sizeWanted : String) (cap : Nat) :
    Nat → Nat → List CrawlEvent × CrawlStop
  | _, 0 => ([], CrawlStop.pagesDone)
  | page, fuel + 1 =>
    let r := pageIter env sizeWanted cap page
    match r.2 with
    | PageRes.stopped => (r.1, CrawlStop.stoppedBySignal)
    | PageRes.fatal c m => (r.1, CrawlStop.fatalExit c m)
    | PageRes.endOfList m => (r.1, CrawlStop.endOfList m)
    | PageRes.parseEnd m => (r.1, CrawlStop.parseEnd m)
    | PageRes.ok true => (r.1, CrawlStop.stoppedBySignal)
    | PageRes.ok false =>
      let rest := crawlLoop env sizeWanted cap (page + 1) fuel
      (r.1 ++ rest.1, rest.2)

/-- Whole crawler run, main.go lines 120 to 193: pages 1 to maxPages, and
the queue capacity 100 * concurrency of main.go line 74.  The search
clause only shapes the request URL, which the fetch oracle absorbs. -/
def fetchFlickrData (env : CrawlEnv) (searchClause sizeWanted : String)
    (maxPages concurrency : Nat) : List CrawlEvent × CrawlStop :=
  crawlLoop env sizeWanted (100 * concurrency) 1 maxPages

/-- What main does right after fetchFlickrData, main.go lines 103 to 117.
A fatal log inside the crawler is os.Exit: the drain loop, the close of
stop and wg.Wait never run.  Every other crawl outcome falls through to
the drain phase (modelled separately by the coordinator below). -/
inductive MainOutcome
  | fatalExit (code : Nat)
  | proceedsToDrain
deriving DecidableEq

def mainAfterCrawl : CrawlStop → MainOutcome
  | CrawlStop.fatalExit c _ => MainOutcome.fatalExit c
  | _ => MainOutcome.proceedsToDrain

/-- Shared state of the shutdown coordination of main, main.go lines 70
to 113: the finishing flag, whether the stop channel has been closed, the
program counters of the two agents that can close it, and a fault when a
Go runtime panic fired.  Closing a closed channel panics in Go. -/
structure CoordState where
  finishing : Bool
  stopClosed : Bool
  mainPc : Nat
  sigPc : Nat
  fault : Option String
deriving DecidableEq

inductive Tid
  | main
  | sig
deriving DecidableEq

def closeOfClosed : String := "close of closed channel"

/-- One atomic step of one agent.
Main drain loop, main.go lines 105 to 113: pc 0 reads the finishing flag
(loop condition), pc 1 reads len(grab_pictures) — qlen here, pc 2 executes
close(stop) and breaks, pc 3 is past the loop (wg.Wait).
Signal goroutine, main.go lines 78 to 94, after the signal arrived:
pc 0 sets finishing = true (line 84), pc 1 executes close(stop) (line 85),
pc 2 has returned. -/
def coordStep (qlen : Nat) (s : CoordState) (t : Tid) : CoordState :=
  if s.fault.isSome then s
  else
    match t with
    | Tid.main =>
      match s.mainPc with
      | 0 => if s.finishing then { s with mainPc := 3 } else { s with mainPc := 1 }
      | 1 => if qlen = 0 then { s with mainPc := 2 } else { s with mainPc := 0 }
      | 2 =>
        if s.stopClosed then { s with fault := some closeOfClosed }
        else { s with stopClosed := true, mainPc := 3 }
      | _ => s
    | Tid.sig =>
      match s.sigPc with
      | 0 => { s with finishing := true, sigPc := 1 }
      | 1 =>
        if s.stopClosed then { s with fault := some closeOfClosed }
        else { s with stopClosed := true, sigPc := 2 }
      | _ => s

/-- Run the two agents under an interleaving schedule. -/
def coordRun (qlen : Nat) (sched : List Tid) (s : CoordState) : CoordState :=
  match sched with
  | [] => s
  | t :: rest => coordRun qlen rest (coordStep qlen s t)

def coordInit : CoordState :=
  { finishing := false, stopClosed := false, mainPc := 0, sigPc := 0, fault := none }

/-- Split a string at every slash character. -/
def splitSlashAux : List Char → List Char → List String
  | [], cur => [String.mk cur.reverse]
  | c :: rest, cur =>
    if c = '/' then String.mk cur.reverse :: splitSlashAux rest []
    else splitSlashAux rest (c :: cur)

def splitSlash (p : String) : List String := splitSlashAux p.toList []

/-- Lexical resolution of a slash-separated path: a double-dot segment
removes the segment before it, empty and single-dot segments vanish.  Used
to state where an unsanitized filename makes the worker write. -/
def normSegsAux : List String → List String → List String
  | acc, [] => acc
  | acc, s :: rest =>
    if s = ".." then normSegsAux acc.dropLast rest
    else if s = "" then normSegsAux acc rest
    else if s = "." then normSegsAux acc rest
    else normSegsAux (acc ++ [s]) rest

def normSegs (p : String) : List String := normSegsAux [] (splitSlash p)

/-- Whether path p stays inside directory dir after lexical resolution. -/
def staysInDir (dir p : String) : Bool :=
  decide ((normSegs p).take (normSegs dir).length = normSegs dir)

/-- Concrete fixtures used by witnesses and counterexamples. -/
def sized0 : FlickrResultPhotoSize :=
  { Label := "Original", Filename := "cat.jpg", Url := "http://farm.example/cat.jpg" }

def respSmall : GetResp := { contentLength := 3, body := [1, 2, 3] }

def photoWithO : FlickrResultPhoto :=
  { Name := "cat", Description := "a cat", Sizes := [("o", sized0)] }

def photoWithoutO : FlickrResultPhoto :=
  { Name := "dog", Description := "a dog", Sizes := [("m", sized0)] }

def envDoErr : CrawlEnv :=
  { stopAtPage := fun _ => false,
    fetch := fun _ => FetchOutcome.doErr "connection refused",
    decode := fun _ => none,
    stopAtOffer := fun _ _ => false,
    qlenAt := fun _ _ => 0,
    pickAt := fun _ _ => false }

def envStopped : CrawlEnv := { envDoErr with stopAtPage := fun _ => true }

def envNotJson : CrawlEnv :=
  { envDoErr with fetch := fun _ => FetchOutcome.resp "text/html" "<html>" false }

/-! ## Helper lemmas -/

/-- The retry loop always performs at least one http.Get when it has budget
left (main.go line 204). -/
theorem grabLoop_attempts_pos (sized : FlickrResultPhotoSize) (dir : String)
    (get : Nat → Option GetResp) (createOk : Nat → Bool) (copyStop : Nat → Option Nat)
    (i fuel : Nat) (h : 0 < fuel) :
    1 ≤ (grabLoop sized dir get createOk copyStop i fuel).attempts := by
  cases fuel with
  | zero => omega
  | succ f =>
    cases hg : get i with
    | some resp =>
      by_cases hc : createOk i
      · simp [grabLoop, hg, hc]
      · simp [grabLoop, hg, hc]
    | none =>
      simp [grabLoop, hg]

/-- Any file the retry loop creates is at the unsanitized concatenated
path of main.go line 208. -/
theorem grabLoop_created_path (sized : FlickrResultPhotoSize) (dir : String)
    (get : Nat → Option GetResp) (createOk : Nat → Bool) (copyStop : Nat → Option Nat) :
    ∀ (fuel i : Nat) (p : String) (b : List Nat),
      (grabLoop sized dir get createOk copyStop i fuel).created = some (p, b) →
      p = destPath dir sized.Filename := by
  intro fuel
  induction fuel with
  | zero => intro i p b h; simp [grabLoop] at h
  | succ f ih =>
    intro i p b h
    cases hg : get i with
    | none =>
      simp [grabLoop, hg] at h
      exact ih (i + 1) p b h
    | some resp =>
      by_cases hc : createOk i
      · simp [grabLoop, hg, hc] at h
        exact h.1.symm
      · simp [grabLoop, hg, hc] at h
        exact ih (i + 1) p b h

/-- When the first k attempts fail at the transport level and attempt k
gets a response and creates its file, the loop records exactly that
write. -/
theorem grabLoop_firstSuccess (sized : FlickrResultPhotoSize) (dir : String)
    (get : Nat → Option GetResp) (createOk : Nat → Bool) (copyStop : Nat → Option Nat)
    (resp : GetResp) :
    ∀ (k i fuel : Nat), k < fuel → (∀ j, j < k → get (i + j) = none) →
      get (i + k) = some resp → createOk (i + k) = true →
      (grabLoop sized dir get createOk copyStop i fuel).created =
        some (destPath dir sized.Filename, copyContent resp (copyStop (i + k))) := by
  intro k
  induction k with
  | zero =>
    intro i fuel hk hnone hg hc
    cases fuel with
    | zero => omega
    | succ f =>
      rw [Nat.add_zero] at hg hc
      simp [grabLoop, hg, hc, Nat.add_zero]
  | succ k ih =>
    intro i fuel hk hnone hg hc
    cases fuel with
    | zero => omega
    | succ f =>
      have h0 : get i = none := by
        have := hnone 0 (Nat.succ_pos k)
        rwa [Nat.add_zero] at this
      have hik : i + (k + 1) = (i + 1) + k := by omega
      rw [hik] at hg hc
      have hnone2 : ∀ j, j < k → get ((i + 1) + j) = none := by
        intro j hj
        have := hnone (j + 1) (by omega)
        rwa [show i + (j + 1) = (i + 1) + j by omega] at this
      have hrec := ih (i + 1) f (by omega) hnone2 hg hc
      rw [hik]
      simpa [grabLoop, h0] using hrec

theorem fsRead_fsWrite_self (fs : FS) (p : String) (b : List Nat) :
    fsRead (fsWrite fs p b) p = some b := by
  induction fs with
  | nil => simp [fsWrite, fsRead]
  | cons e rest ih =>
    obtain ⟨q, c⟩ := e
    by_cases h : q = p
    · simp [fsWrite, fsRead, h]
    · simp [fsWrite, fsRead, h, ih]

theorem fsRead_fsWrite_other (fs : FS) (p : String) (b : List Nat) (q : String)
    (hqp : q ≠ p) : fsRead (fsWrite fs p b) q = fsRead fs q := by
  induction fs with
  | nil => simp [fsWrite, fsRead, Ne.symm hqp]
  | cons e rest ih =>
    obtain ⟨r, c⟩ := e
    by_cases h : r = p
    · subst h
      simp [fsWrite, fsRead, Ne.symm hqp]
    · simp [fsWrite, fsRead, h, ih]

/-! ## Claims -/

/-- Claim C1.  The claim asks that triggering the cancellation token be
idempotent: N triggers, including one from the OS interrupt path and one
from the natural drain path, must collapse to exactly one state
transition with no fault.  In the code the trigger is close(stop), called
without coordination from the signal goroutine (main.go line 85) and from
the drain loop of main (line 107), and Go panics on closing a closed
channel.  First conjunct: with the queue drained (qlen 0), the
interleaving in which main passes its finishing check and its length
check, the signal goroutine then runs its whole handler, and main then
executes its close, ends in the runtime fault — the second trigger is a
fault, not a no-op.  Remaining conjuncts: either path alone closes the
channel exactly once without fault, so the fault is precisely the double
trigger of the claim. -/
theorem claim_C1_double_close_fault :
    (coordRun 0 [Tid.main, Tid.main, Tid.sig, Tid.sig, Tid.main] coordInit).fault =
      some "close of closed channel" ∧
    (coordRun 0 [Tid.main, Tid.main, Tid.main] coordInit).fault = none ∧
    (coordRun 0 [Tid.main, Tid.main, Tid.main] coordInit).stopClosed = true ∧
    (coordRun 0 [Tid.sig, Tid.sig] coordInit).fault = none ∧
    (coordRun 0 [Tid.sig, Tid.sig] coordInit).stopClosed = true := by decide

/-- Claim C2, counterexample.  The claim says that once the token is set
no new enqueue and no new dequeue happens.  In the code both the enqueue
select (main.go lines 182 to 189) and the dequeue select (lines 200 to
226) list the stop receive next to the channel operation, and Go chooses
pseudo-randomly among ready cases, so with the stop channel closed the
send case (queue not full) and the receive case (queue nonempty) can
still win: here the crawler enqueues after stop with queue length 0 of
capacity 400, and a worker dequeues the queued item after stop. -/
theorem claim_C2_counterexample :
    offerSelect true 0 400 false = OfferRes.enqueued ∧
    (grabPicturesIter true [sized0] true (fun _ => none) (fun _ => true)
      (fun _ => none) "/out" []).queue = [] ∧
    (grabPicturesIter true [sized0] true (fun _ => none) (fun _ => true)
      (fun _ => none) "/out" []).next = WorkerNext.looped := by decide

/-- Claim C2, amended.  What does hold: once the token is set, the page
loop check of main.go lines 139 to 144 returns before any request is
built, so no new page fetch is initiated (no events, stoppedBySignal);
and a worker whose queue is empty can only take the stop case of its
select, so it exits instead of dequeuing.  The enqueue and dequeue that
the original claim rules out remain possible while the queue has space
respectively items (see the counterexample); an already dequeued item
always finishes its retry sequence, since the retry loop of grabLoop
never consults the stop channel. -/
theorem claim_C2_amended :
    (∀ (env : CrawlEnv) (sizeWanted : String) (cap page fuel : Nat),
      env.stopAtPage page = true →
      crawlLoop env sizeWanted cap page (fuel + 1) = ([], CrawlStop.stoppedBySignal)) ∧
    (∀ pick : Bool, workerSelect true 0 pick = WorkerSel.stopExit) := by
  constructor
  · intro env sizeWanted cap page fuel h
    simp [crawlLoop, pageIter, h]
  · intro pick
    rfl

theorem claim_C2_witness :
    crawlLoop envStopped "o" 400 1 3 = ([], CrawlStop.stoppedBySignal) :=
  claim_C2_amended.1 envStopped "o" 400 1 2 rfl

/-- Claim C3, counterexample.  The claim says a successful GET exits the
retry loop unconditionally, even when the file create fails.  In the code
(main.go lines 204 to 219) break nextPicture sits inside the branch where
os.Create succeeded; when os.Create fails nothing breaks, so with every
GET succeeding and every create failing the loop runs all 5 attempts,
writes nothing, and falls through to the hard error log with retries 5 —
not the single attempt the claim describes. -/
theorem claim_C3_counterexample :
    (grabItem sized0 "/out" (fun _ => some respSmall) (fun _ => false)
      (fun _ => none)).attempts = 5 ∧
    (grabItem sized0 "/out" (fun _ => some respSmall) (fun _ => false)
      (fun _ => none)).created = none ∧
    (grabItem sized0 "/out" (fun _ => some respSmall) (fun _ => false)
      (fun _ => none)).abandonedAfter = some 5 := by decide

/-- Claim C3, amended.  A successful GET followed by a successful file
create exits the retry loop at once, and any error of the body copy is
swallowed and still exits (first conjunct holds for every copyStop
oracle).  When the file create fails after a successful GET, the failure
is swallowed without log, no backoff sleep runs, and the loop proceeds to
another attempt: the trace is the trace of the remaining four attempts
with one more GET and nothing else added, so at least two attempts
happen. -/
theorem claim_C3_amended (sized : FlickrResultPhotoSize) (dir : String)
    (get : Nat → Option GetResp) (createOk : Nat → Bool) (copyStop : Nat → Option Nat)
    (resp : GetResp) (hg : get 0 = some resp) :
    (createOk 0 = true →
      grabItem sized dir get createOk copyStop =
        { attempts := 1, sleeps := [],
          created := some (destPath dir sized.Filename, copyContent resp (copyStop 0)),
          abandonedAfter := none }) ∧
    (createOk 0 = false →
      grabItem sized dir get createOk copyStop =
        { (grabLoop sized dir get createOk copyStop 1 4) with
          attempts := (grabLoop sized dir get createOk copyStop 1 4).attempts + 1 } ∧
      2 ≤ (grabItem sized dir get createOk copyStop).attempts) := by
  constructor
  · intro hc
    simp [grabItem, grabLoop, hg, hc]
  · intro hc
    have h1 : grabItem sized dir get createOk copyStop =
        { (grabLoop sized dir get createOk copyStop 1 4) with
          attempts := (grabLoop sized dir get createOk copyStop 1 4).attempts + 1 } := by
      simp [grabItem, grabLoop, hg, hc]
    refine ⟨h1, ?_⟩
    rw [h1]
    have hp := grabLoop_attempts_pos sized dir get createOk copyStop 1 4 (by omega)
    simpa using hp

theorem claim_C3_witness :
    grabItem sized0 "/out" (fun _ => some respSmall) (fun _ => true) (fun _ => none) =
      { attempts := 1, sleeps := [],
        created := some (destPath "/out" sized0.Filename, respSmall.body),
        abandonedAfter := none } :=
  (claim_C3_amended sized0 "/out" (fun _ => some respSmall) (fun _ => true)
    (fun _ => none) respSmall rfl).1 rfl

/-- Claim C4.  For a descriptor whose source URL always fails at the
transport level (get i = none for every i), a worker that has dequeued it
makes exactly 5 GET attempts, sleeps 2 * (attempt + 1) time units after
each failed attempt — the backoff list is [2, 4, 6, 8, 10] —, creates no
file, abandons the item with the hard error log rendered for retries = 5,
and the worker loop goes back to its select instead of exiting. -/
theorem claim_C4 (sized : FlickrResultPhotoSize) (rest : List FlickrResultPhotoSize)
    (pick : Bool) (createOk : Nat → Bool) (copyStop : Nat → Option Nat)
    (dir : String) (fs : FS) (get : Nat → Option GetResp)
    (hget : ∀ i, get i = none) :
    grabPicturesIter false (sized :: rest) pick get createOk copyStop dir fs =
      { fs := fs, queue := rest, next := WorkerNext.looped,
        trace := some { attempts := 5, sleeps := [2, 4, 6, 8, 10],
                        created := none, abandonedAfter := some 5 } } ∧
    hardErrorLog 5 = "could not fetch after 5 retries -> assuming hard error" := by
  constructor
  · have ht : grabItem sized dir get createOk copyStop =
        { attempts := 5, sleeps := [2, 4, 6, 8, 10],
          created := none, abandonedAfter := some 5 } := by
      simp [grabItem, grabLoop, hget]
    have hsel : workerSelect false (rest.length + 1) pick = WorkerSel.gotItem := by
      simp [workerSelect]
    simp only [grabPicturesIter, List.length_cons, hsel, ht, applyTrace]
  · rfl

theorem claim_C4_witness :
    grabPicturesIter false [sized0] true (fun _ => none) (fun _ => true)
      (fun _ => none) "/out" [] =
      { fs := [], queue := [], next := WorkerNext.looped,
        trace := some { attempts := 5, sleeps := [2, 4, 6, 8, 10],
                        created := none, abandonedAfter := some 5 } } :=
  (claim_C4 sized0 [] true (fun _ => true) (fun _ => none) "/out" []
    (fun _ => none) (fun _ => rfl)).1

/-- Claim C5, counterexample.  The claim says the process still exits
with code 0 after a fatal crawler error.  The fatal paths of
fetchFlickrData go through log.Fatalf, which is Printf followed by
os.Exit(1): with the search endpoint unreachable on page 1 the run ends
in the fatal exit with code 1, and that outcome differs from an exit with
code 0. -/
theorem claim_C5_counterexample :
    mainAfterCrawl (fetchFlickrData envDoErr "kittens" "o" 3 4).2 =
      MainOutcome.fatalExit 1 ∧
    MainOutcome.fatalExit 1 ≠ MainOutcome.fatalExit 0 := by decide

/-- Claim C5, amended.  A fatal crawler error — request construction
failure (main.go lines 146 to 149), transport failure of client.Do (lines
151 to 154), or a body read failure (lines 165 to 168) — aborts the run
immediately through log.Fatalf: the page loop stops at that page, main
never reaches its drain loop or wg.Wait (MainOutcome.fatalExit bypasses
the drain phase), and the process exits with code 1, the os.Exit code of
log.Fatalf, not 0. -/
theorem claim_C5_amended (env : CrawlEnv) (sizeWanted : String) (cap page fuel : Nat)
    (msg : String) (h0 : env.stopAtPage page = false) :
    (env.fetch page = FetchOutcome.reqErr msg →
      crawlLoop env sizeWanted cap page (fuel + 1) =
        ([], CrawlStop.fatalExit 1 ("error creating request: " ++ msg)) ∧
      mainAfterCrawl (crawlLoop env sizeWanted cap page (fuel + 1)).2 =
        MainOutcome.fatalExit 1) ∧
    (env.fetch page = FetchOutcome.doErr msg →
      crawlLoop env sizeWanted cap page (fuel + 1) =
        ([CrawlEvent.fetchedPage page],
         CrawlStop.fatalExit 1 ("error while getting response: " ++ msg)) ∧
      mainAfterCrawl (crawlLoop env sizeWanted cap page (fuel + 1)).2 =
        MainOutcome.fatalExit 1) ∧
    (∀ body : String, env.fetch page = FetchOutcome.resp "application/json" body true →
      crawlLoop env sizeWanted cap page (fuel + 1) =
        ([CrawlEvent.fetchedPage page],
         CrawlStop.fatalExit 1 "error while reading response body") ∧
      mainAfterCrawl (crawlLoop env sizeWanted cap page (fuel + 1)).2 =
        MainOutcome.fatalExit 1) ∧
    logFatalExitCode = 1 := by
  refine ⟨fun h => ?_, fun h => ?_, fun body h => ?_, rfl⟩
  all_goals
    refine ⟨?_, ?_⟩
    · simp [crawlLoop, pageIter, h0, h, logFatalExitCode]
    · simp [crawlLoop, pageIter, h0, h, logFatalExitCode, mainAfterCrawl]

theorem claim_C5_witness :
    crawlLoop envDoErr "o" 400 1 3 =
      ([CrawlEvent.fetchedPage 1],
       CrawlStop.fatalExit 1 ("error while getting response: " ++ "connection refused")) ∧
    mainAfterCrawl (crawlLoop envDoErr "o" 400 1 3).2 = MainOutcome.fatalExit 1 :=
  (claim_C5_amended envDoErr "o" 400 1 2 "connection refused" rfl).2.1 rfl

/-- Claim C6.  A page response with a declared content type other than
application/json makes the crawler return after logging the end-of-list
line (main.go lines 156 to 160): the loop produces no offer events from
that page and stops even though fuel for more pages remains; a body that
fails to decode makes it break with the parse end-of-list line (lines 172
to 177), again with no offers from that page.  Neither outcome is the
fatal path: main proceeds to the drain phase. -/
theorem claim_C6 (env : CrawlEnv) (sizeWanted : String) (cap page fuel : Nat)
    (ct bodyStr : String) (h0 : env.stopAtPage page = false)
    (h1 : env.fetch page = FetchOutcome.resp ct bodyStr false) :
    (ct ≠ "application/json" →
      crawlLoop env sizeWanted cap page (fuel + 1) =
        ([CrawlEvent.fetchedPage page],
         CrawlStop.endOfList "result is not application/json -> assuming end of list") ∧
      mainAfterCrawl (crawlLoop env sizeWanted cap page (fuel + 1)).2 =
        MainOutcome.proceedsToDrain) ∧
    (ct = "application/json" → env.decode bodyStr = none →
      crawlLoop env sizeWanted cap page (fuel + 1) =
        ([CrawlEvent.fetchedPage page],
         CrawlStop.parseEnd "can't parse json structure -> assuming end of list") ∧
      mainAfterCrawl (crawlLoop env sizeWanted cap page (fuel + 1)).2 =
        MainOutcome.proceedsToDrain) := by
  constructor
  · intro hct
    refine ⟨?_, ?_⟩
    · simp [crawlLoop, pageIter, h0, h1, hct]
    · simp [crawlLoop, pageIter, h0, h1, hct, mainAfterCrawl]
  · intro hct hdec
    subst hct
    refine ⟨?_, ?_⟩
    · simp [crawlLoop, pageIter, h0, h1, hdec]
    · simp [crawlLoop, pageIter, h0, h1, hdec, mainAfterCrawl]

theorem claim_C6_witness :
    crawlLoop envNotJson "o" 400 1 3 =
      ([CrawlEvent.fetchedPage 1],
       CrawlStop.endOfList "result is not application/json -> assuming end of list") ∧
    mainAfterCrawl (crawlLoop envNotJson "o" 400 1 3).2 = MainOutcome.proceedsToDrain :=
  (claim_C6 envNotJson "o" 400 1 2 "text/html" "<html>" rfl rfl).1 (by decide)

/-- Claim C7.  The enqueue of the crawler is one best-effort offer
(main.go lines 182 to 189): with cancellation not fired and the queue
full (cap ≤ qlenAt j at every item), no select case is ready, the default
branch fires, and each matching descriptor of the page is dropped exactly
once — the per-item loop produces one dropped event per matching item, in
order, enqueues nothing, never blocks, and continues to the end of the
page (no early stop).  The last conjunct isolates the select itself:
queue full plus no cancellation always resolves to dropped. -/
theorem claim_C7 (sizeWanted : String) (cap : Nat) (stopAt : Nat → Bool)
    (qlenAt : Nat → Nat) (pickAt : Nat → Bool) (photos : List FlickrResultPhoto)
    (i : Nat) (hs : ∀ j, stopAt j = false) (hq : ∀ j, cap ≤ qlenAt j) :
    processPhotos sizeWanted cap stopAt qlenAt pickAt photos i =
      ((photos.filterMap (fun p => lookupSize p.Sizes sizeWanted)).map
        CrawlEvent.dropped, false) ∧
    (∀ (q : Nat) (pick : Bool), cap ≤ q →
      offerSelect false q cap pick = OfferRes.dropped) := by
  constructor
  · induction photos generalizing i with
    | nil => simp [processPhotos]
    | cons p rest ih =>
      cases hl : lookupSize p.Sizes sizeWanted with
      | none =>
        simp [processPhotos, hl, List.filterMap_cons, ih (i + 1)]
      | some sized =>
        have hoff : offerSelect (stopAt i) (qlenAt i) cap (pickAt i) =
            OfferRes.dropped := by
          rw [hs i]
          simp [offerSelect, Nat.not_lt.mpr (hq i)]
        simp [processPhotos, hl, hoff, List.filterMap_cons, List.map_cons, ih (i + 1)]
  · intro q pick hcq
    simp [offerSelect, Nat.not_lt.mpr hcq]

theorem claim_C7_witness :
    processPhotos "o" 400 (fun _ => false) (fun _ => 400) (fun _ => false)
      [photoWithO, photoWithoutO] 0 =
      (([photoWithO, photoWithoutO].filterMap
        (fun p => lookupSize p.Sizes "o")).map CrawlEvent.dropped, false) :=
  (claim_C7 "o" 400 (fun _ => false) (fun _ => 400) (fun _ => false)
    [photoWithO, photoWithoutO] 0 (fun _ => rfl) (fun _ => Nat.le_refl 400)).1

/-- Claim C9.  Over one decoded page with cancellation not firing during
the item loop (main.go lines 179 to 191), the sequence of descriptors the
crawler offers to the queue — whether the select enqueues or drops them —
is exactly the per-item lookups that found the wanted size label: one
offer per item whose size map holds the label, in page order, and an item
whose lookup misses contributes nothing (last conjunct: a page of one
such item produces no event at all). -/
theorem claim_C9 (sizeWanted : String) (cap : Nat) (stopAt : Nat → Bool)
    (qlenAt : Nat → Nat) (pickAt : Nat → Bool) (photos : List FlickrResultPhoto)
    (i : Nat) (hs : ∀ j, stopAt j = false) :
    (processPhotos sizeWanted cap stopAt qlenAt pickAt photos i).1.filterMap offerOf =
      photos.filterMap (fun p => lookupSize p.Sizes sizeWanted) ∧
    (processPhotos sizeWanted cap stopAt qlenAt pickAt photos i).2 = false ∧
    (∀ photo : FlickrResultPhoto, lookupSize photo.Sizes sizeWanted = none →
      ∀ j : Nat, processPhotos sizeWanted cap stopAt qlenAt pickAt [photo] j =
        ([], false)) := by
  have main : ∀ (ps : List FlickrResultPhoto) (i : Nat),
      (processPhotos sizeWanted cap stopAt qlenAt pickAt ps i).1.filterMap offerOf =
        ps.filterMap (fun p => lookupSize p.Sizes sizeWanted) ∧
      (processPhotos sizeWanted cap stopAt qlenAt pickAt ps i).2 = false := by
    intro ps
    induction ps with
    | nil => intro i; simp [processPhotos]
    | cons p rest ih =>
      intro i
      cases hl : lookupSize p.Sizes sizeWanted with
      | none =>
        simp [processPhotos, hl, List.filterMap_cons, ih (i + 1)]
      | some sized =>
        by_cases hqi : qlenAt i < cap
        · have hoff : offerSelect (stopAt i) (qlenAt i) cap (pickAt i) =
              OfferRes.enqueued := by
            rw [hs i]
            simp [offerSelect, hqi]
          simp [processPhotos, hl, hoff, List.filterMap_cons, offerOf, ih (i + 1)]
        · have hoff : offerSelect (stopAt i) (qlenAt i) cap (pickAt i) =
              OfferRes.dropped := by
            rw [hs i]
            simp [offerSelect, hqi]
          simp [processPhotos, hl, hoff, List.filterMap_cons, offerOf, ih (i + 1)]
  refine ⟨(main photos i).1, (main photos i).2, ?_⟩
  intro photo hl j
  simp [processPhotos, hl]

theorem claim_C9_witness :
    (processPhotos "o" 400 (fun _ => false) (fun _ => 0) (fun _ => false)
      [photoWithO, photoWithoutO] 0).1.filterMap offerOf =
      [photoWithO, photoWithoutO].filterMap (fun p => lookupSize p.Sizes "o") :=
  (claim_C9 "o" 400 (fun _ => false) (fun _ => 0) (fun _ => false)
    [photoWithO, photoWithoutO] 0 (fun _ => rfl)).1

/-- Claim C8.  A descriptor whose fetch succeeds — the first k attempts
fail at the transport level, attempt k within the budget gets a response,
its os.Create succeeds and io.Copy streams the whole body — produces
exactly one file write: at the path targetDirectory/filename, the file
afterwards holds exactly the bytes of the response body (truncation: any
previous content at the path is gone), and no other path of the
filesystem changes. -/
theorem claim_C8 (sized : FlickrResultPhotoSize) (dir : String) (fs : FS)
    (get : Nat → Option GetResp) (createOk : Nat → Bool) (copyStop : Nat → Option Nat)
    (k : Nat) (resp : GetResp) (hk : k < 5) (hfail : ∀ j, j < k → get j = none)
    (hg : get k = some resp) (hc : createOk k = true) (hcopy : copyStop k = none) :
    (grabItem sized dir get createOk copyStop).created =
      some (destPath dir sized.Filename, resp.body) ∧
    fsRead (applyTrace fs (grabItem sized dir get createOk copyStop))
      (destPath dir sized.Filename) = some resp.body ∧
    (∀ q : String, q ≠ destPath dir sized.Filename →
      fsRead (applyTrace fs (grabItem sized dir get createOk copyStop)) q =
        fsRead fs q) := by
  have hcr : (grabItem sized dir get createOk copyStop).created =
      some (destPath dir sized.Filename, resp.body) := by
    have hfs := grabLoop_firstSuccess sized dir get createOk copyStop resp k 0 5 hk
      (by intro j hj; simpa using hfail j hj)
      (by simpa using hg) (by simpa using hc)
    rw [grabItem, hfs]
    simp [copyContent, Nat.zero_add, hcopy]
  refine ⟨hcr, ?_, ?_⟩
  · simp [applyTrace, hcr, fsRead_fsWrite_self]
  · intro q hq
    simp [applyTrace, hcr, fsRead_fsWrite_other, hq]

theorem claim_C8_witness :
    fsRead (applyTrace [("/out/cat.jpg", [9])]
      (grabItem sized0 "/out" (fun _ => some respSmall) (fun _ => true)
        (fun _ => none))) (destPath "/out" "cat.jpg") = some [1, 2, 3] :=
  (claim_C8 sized0 "/out" [("/out/cat.jpg", [9])] (fun _ => some respSmall)
    (fun _ => true) (fun _ => none) 0 respSmall (by omega)
    (fun j hj => absurd hj (Nat.not_lt_zero j)) rfl rfl rfl).2.1

/-- Claim C10.  Every file the worker creates is at the plain string
concatenation targetDirectory ++ slash ++ filename with the filename taken
verbatim from the decoded JSON (first conjunct: any recorded write path
equals that concatenation, for every oracle).  Consequently a filename
with dot-dot components names a file outside the target directory: with
target /out and filename ../../etc/passwd the written path lexically
resolves to /etc/passwd, which is not under /out, while a plain filename
stays inside. -/
theorem claim_C10 :
    (∀ (sized : FlickrResultPhotoSize) (dir : String) (get : Nat → Option GetResp)
       (createOk : Nat → Bool) (copyStop : Nat → Option Nat) (p : String)
       (b : List Nat),
       (grabItem sized dir get createOk copyStop).created = some (p, b) →
       p = dir ++ "/" ++ sized.Filename) ∧
    destPath "/out" "../../etc/passwd" = "/out/../../etc/passwd" ∧
    normSegs (destPath "/out" "../../etc/passwd") = ["etc", "passwd"] ∧
    staysInDir "/out" (destPath "/out" "../../etc/passwd") = false ∧
    staysInDir "/out" (destPath "/out" "cat.jpg") = true := by
  refine ⟨?_, by decide, by decide, by decide, by decide⟩
  intro sized dir get createOk copyStop p b h
  exact grabLoop_created_path sized dir get createOk copyStop 5 0 p b h

theorem claim_C10_witness :
    "/out/cat.jpg" = "/out" ++ "/" ++ "cat.jpg" :=
  claim_C10.1 sized0 "/out" (fun _ => some respSmall) (fun _ => true)
    (fun _ => none) "/out/cat.jpg" [1, 2, 3] (by decide)
